import Mathlib

/-!
# Verification of the Back-SB event aggregator

Shallow embedding of the event-aggregation core of `src/main.py`
(`get_player_stats`, `get_team_stats`): a left-to-right scan over a
materialized event sequence, building per-player and per-team stat maps.

Modelling choices:
* Python dicts keyed by name are modelled as insertion-ordered association
  lists `List (String × _)`; `dict.get(k, default)`/membership become
  `alookup`.
* Optional event fields and sub-objects are `Option`-typed; absent
  sub-objects default to an all-`none` record, mirroring
  `event.get("shot", {})` followed by `.get(...)` chains.
* Python floats (`statsbomb_xg`, `xg`, `xa`) are modelled as `ℚ`.
* `if not player: continue` skips on Python falsiness, i.e. on `None` and
  on the empty string; `keyOf` captures exactly that.
-/

namespace BackSB

/-- A nested `{name: ...}` mapping, as in `outcome: {name: "Goal"}`. -/
structure Outcome where
  name : Option String
deriving Repr, DecidableEq

/-- Models the `{}` default of `.get("outcome", {})`. -/
def Outcome.empty : Outcome := ⟨none⟩

/-- Safe navigation `o.get("name")` after `.get("outcome", {})`:
`none` at any level short-circuits to `none`. -/
def outcomeName (o : Option Outcome) : Option String :=
  (o.getD Outcome.empty).name

/-- The `shot` sub-object: `outcome` and `statsbomb_xg` keys, both optional. -/
structure ShotObj where
  outcome : Option Outcome
  statsbomb_xg : Option ℚ
deriving Repr, DecidableEq

def ShotObj.empty : ShotObj := ⟨none, none⟩

/-- The `pass` sub-object: `outcome`, `goal_assist`, `statsbomb_xg` keys. -/
structure PassObj where
  outcome : Option Outcome
  goal_assist : Option Bool
  statsbomb_xg : Option ℚ
deriving Repr, DecidableEq

def PassObj.empty : PassObj := ⟨none, none, none⟩

/-- The `duel` sub-object: an optional `outcome` key. -/
structure DuelObj where
  outcome : Option Outcome
deriving Repr, DecidableEq

def DuelObj.empty : DuelObj := ⟨none⟩

/-- The `card` mapping inside `foul_committed`. -/
structure CardObj where
  name : Option String
deriving Repr, DecidableEq

def CardObj.empty : CardObj := ⟨none⟩

/-- The `foul_committed` sub-object: an optional `card` key. -/
structure FoulObj where
  card : Option CardObj
deriving Repr, DecidableEq

def FoulObj.empty : FoulObj := ⟨none⟩

/-- One event record, with every field optional, as consumed by the
aggregation loops of `get_player_stats` / `get_team_stats`.  Only the
fields those loops read are modelled. -/
structure Event where
  type : Option String
  player : Option String
  team : Option String
  shot : Option ShotObj
  pass : Option PassObj
  duel : Option DuelObj
  foul_committed : Option FoulObj
deriving Repr, DecidableEq

/-- The per-player accumulator record, initialized at first sight of a
player (lines 121–139 of `src/main.py`). -/
structure PlayerStats where
  name : String
  team : Option String
  minutes_played : ℕ
  goals : ℕ
  assists : ℕ
  shots : ℕ
  shots_on_target : ℕ
  passes_completed : ℕ
  passes_attempted : ℕ
  tackles : ℕ
  interceptions : ℕ
  duels_won : ℕ
  duels_lost : ℕ
  yellow_cards : ℕ
  red_cards : ℕ
  xg : ℚ
  xa : ℚ
deriving Repr, DecidableEq

/-- The per-team accumulator record (lines 206–222 of `src/main.py`). -/
structure TeamStats where
  team : String
  goals : ℕ
  shots : ℕ
  shots_on_target : ℕ
  passes_completed : ℕ
  passes_attempted : ℕ
  tackles : ℕ
  interceptions : ℕ
  duels_won : ℕ
  duels_lost : ℕ
  corners : ℕ
  fouls : ℕ
  yellow_cards : ℕ
  red_cards : ℕ
  xg : ℚ
deriving Repr, DecidableEq

/-- Fresh player entry: all counters zero, identity from the first event. -/
def initPlayer (k : String) (team : Option String) : PlayerStats :=
  { name := k, team := team, minutes_played := 0, goals := 0, assists := 0,
    shots := 0, shots_on_target := 0, passes_completed := 0,
    passes_attempted := 0, tackles := 0, interceptions := 0, duels_won := 0,
    duels_lost := 0, yellow_cards := 0, red_cards := 0, xg := 0, xa := 0 }

/-- Fresh team entry: all counters zero. -/
def initTeam (k : String) : TeamStats :=
  { team := k, goals := 0, shots := 0, shots_on_target := 0,
    passes_completed := 0, passes_attempted := 0, tackles := 0,
    interceptions := 0, duels_won := 0, duels_lost := 0, corners := 0,
    fouls := 0, yellow_cards := 0, red_cards := 0, xg := 0 }

/-- `if not key: continue` — a key is resolvable iff present and truthy
(non-empty). -/
def keyOf : Option String → Option String
  | none => none
  | some s => if s = "" then none else some s

/-- First-match lookup on an insertion-ordered association list,
modelling Python dict lookup/membership. -/
def alookup {α : Type} (k : String) : List (String × α) → Option α
  | [] => none
  | p :: l => if p.1 = k then some p.2 else alookup k l

/-- The `event_type == "Shot"` branch shared by both aggregators
(lines 144–150 / 226–232): increment `shots`; `shots_on_target` iff the
outcome name is Goal/Saved/Post; add `statsbomb_xg` to `xg` if present. -/
def shotOnTarget (e : Event) : Bool :=
  outcomeName (e.shot.getD ShotObj.empty).outcome
    ∈ [some "Goal", some "Saved", some "Post"]

/-- `statsbomb_xg` of the event's `shot` sub-object, `none` if absent. -/
def shotXg (e : Event) : Option ℚ := (e.shot.getD ShotObj.empty).statsbomb_xg

/-- `pass.get("outcome", {}).get("name")`. -/
def passOutcomeName (e : Event) : Option String :=
  outcomeName (e.pass.getD PassObj.empty).outcome

/-- `pass_event.get("goal_assist")`. -/
def passGoalAssist (e : Event) : Option Bool :=
  (e.pass.getD PassObj.empty).goal_assist

/-- `statsbomb_xg` of the event's `pass` sub-object, `none` if absent. -/
def passXg (e : Event) : Option ℚ := (e.pass.getD PassObj.empty).statsbomb_xg

/-- `duel.get("outcome", {}).get("name")`. -/
def duelOutcomeName (e : Event) : Option String :=
  outcomeName (e.duel.getD DuelObj.empty).outcome

/-- `foul_committed.get("card", {}).get("name")`. -/
def foulCardName (e : Event) : Option String :=
  ((e.foul_committed.getD FoulObj.empty).card.getD CardObj.empty).name

/-- The per-event update of one player's entry: the `elif` chain of
`get_player_stats` (lines 142–186 of `src/main.py`). -/
def applyPlayer (e : Event) (s : PlayerStats) : PlayerStats :=
  if e.type = some "Shot" then
    let s := { s with shots := s.shots + 1 }
    let s := if shotOnTarget e then
        { s with shots_on_target := s.shots_on_target + 1 } else s
    match shotXg e with
    | some x => { s with xg := s.xg + x }
    | none => s
  else if e.type = some "Pass" then
    let s := if passOutcomeName e ≠ some "Incomplete" then
        { s with passes_completed := s.passes_completed + 1 } else s
    let s := { s with passes_attempted := s.passes_attempted + 1 }
    if passGoalAssist e = some true then
      let s := { s with assists := s.assists + 1 }
      match passXg e with
      | some x => { s with xa := s.xa + x }
      | none => s
    else s
  else if e.type = some "Goal" then
    { s with
    goals := s.goals + 1 }
  else if e.type = some "Tackle" then
    { s with tackles := s.tackles + 1 }
  else if e.type = some "Interception" then
    { s with interceptions := s.interceptions + 1 }
  else if e.type = some "Duel" then
    if duelOutcomeName e = some "Won" then
      { s with duels_won := s.duels_won + 1 }
    else
      { s with duels_lost := s.duels_lost + 1 }
  else if e.type = some "Foul Committed" then
    if foulCardName e = some "Yellow Card" then
      { s with yellow_cards := s.yellow_cards + 1 }
    else if foulCardName e = some "Red Card" then
      { s with red_cards := s.red_cards + 1 }
    else s
  else s

/-- The per-event update of one team's entry: the `elif` chain of
`get_team_stats` (lines 224–266 of `src/main.py`). -/
def applyTeam (e : Event) (s : TeamStats) : TeamStats :=
  if e.type = some "Shot" then
    let s := { s with shots := s.shots + 1 }
    let s := if shotOnTarget e then
        { s with shots_on_target := s.shots_on_target + 1 } else s
    match shotXg e with
    | some x => { s with xg := s.xg + x }
    | none => s
  else if e.type = some "Pass" then
    let s := if passOutcomeName e ≠ some "Incomplete" then
        { s with passes_completed := s.passes_completed + 1 } else s
    { s with passes_attempted := s.passes_attempted + 1 }
  else if e.type = some "Goal" then
    { s with
    goals := s.goals + 1 }
  else if e.type = some "Tackle" then
    { s with tackles := s.tackles + 1 }
  else if e.type = some "Interception" then
    { s with interceptions := s.interceptions + 1 }
  else if e.type = some "Duel" then
    if duelOutcomeName e = some "Won" then
      { s with duels_won := s.duels_won + 1 }
    else
      { s with duels_lost := s.duels_lost + 1 }
  else if e.type = some "Corner" then
    { s with corners := s.corners + 1 }
  else if e.type = some "Foul Committed" then
    let s := { s with fouls := s.fouls + 1 }
    if foulCardName e = some "Yellow Card" then
      { s with yellow_cards := s.yellow_cards + 1 }
    else if foulCardName e = some "Red Card" then
      { s with red_cards := s.red_cards + 1 }
    else s
  else s

/-- One iteration of the `get_player_stats` loop: skip events with no
truthy player, otherwise ensure the entry exists then apply the rules. -/
def playerStep (st : List (String × PlayerStats)) (e : Event) :
    List (String × PlayerStats) :=
  match keyOf e.player with
  | none => st
  | some k =>
    let st1 := if (alookup k st).isSome then st
               else st ++ [(k, initPlayer k e.team)]
    st1.map (fun p => if p.1 = k then (p.1, applyPlayer e p.2) else p)

/-- One iteration of the `get_team_stats` loop. -/
def teamStep (st : List (String × TeamStats)) (e : Event) :
    List (String × TeamStats) :=
  match keyOf e.team with
  | none => st
  | some k =>
    let st1 := if (alookup k st).isSome then st
               else st ++ [(k, initTeam k)]
    st1.map (fun p => if p.1 = k then (p.1, applyTeam e p.2) else p)

/-- The full `get_player_stats` aggregation over an event sequence. -/
def playerStats (events : List Event) : List (String × PlayerStats) :=
  events.foldl playerStep []

/-- The full `get_team_stats` aggregation over an event sequence. -/
def teamStats (events : List Event) : List (String × TeamStats) :=
  events.foldl teamStep []

/-- `list(player_stats.values())` — the returned payload. -/
def playerStatsList (events : List Event) : List PlayerStats :=
  (playerStats events).map (·.2)

/-- `list(team_stats.values())`. -/
def teamStatsList (events : List Event) : List TeamStats :=
  (teamStats events).map (·.2)

/-! ## Additive-delta reformulation

Every metric-update rule is a pure increment: each event contributes a
per-event delta, independent of the accumulator's current value.  The
lemma `applyPlayer_addD` below proves the `elif` chain equal to adding
this delta, which drives the invariant and permutation results. -/

/-- The numeric contribution of one event to a player entry. -/
structure PDelta where
  goals : ℕ
  assists : ℕ
  shots : ℕ
  shots_on_target : ℕ
  passes_completed : ℕ
  passes_attempted : ℕ
  tackles : ℕ
  interceptions : ℕ
  duels_won : ℕ
  duels_lost : ℕ
  yellow_cards : ℕ
  red_cards : ℕ
  xg : ℚ
  xa : ℚ
deriving Repr, DecidableEq

def PDelta.zero : PDelta := ⟨0, 0, 0, 0, 0, 0, 0, 0, 0, 0, 0, 0, 0, 0⟩

def PDelta.add (a b : PDelta) : PDelta :=
  ⟨a.goals + b.goals, a.assists + b.assists, a.shots + b.shots,
   a.shots_on_target + b.shots_on_target,
   a.passes_completed + b.passes_completed,
   a.passes_attempted + b.passes_attempted, a.tackles + b.tackles,
   a.interceptions + b.interceptions, a.duels_won + b.duels_won,
   a.duels_lost + b.duels_lost, a.yellow_cards + b.yellow_cards,
   a.red_cards + b.red_cards, a.xg + b.xg, a.xa + b.xa⟩

/-- The numeric contribution of one event to a team entry. -/
structure TDelta where
  goals : ℕ
  shots : ℕ
  shots_on_target : ℕ
  passes_completed : ℕ
  passes_attempted : ℕ
  tackles : ℕ
  interceptions : ℕ
  duels_won : ℕ
  duels_lost : ℕ
  corners : ℕ
  fouls : ℕ
  yellow_cards : ℕ
  red_cards : ℕ
  xg : ℚ
deriving Repr, DecidableEq

def TDelta.zero : TDelta := ⟨0, 0, 0, 0, 0, 0, 0, 0, 0, 0, 0, 0, 0, 0⟩

def TDelta.add (a b : TDelta) : TDelta :=
  ⟨a.goals + b.goals, a.shots + b.shots,
   a.shots_on_target + b.shots_on_target,
   a.passes_completed + b.passes_completed,
   a.passes_attempted + b.passes_attempted, a.tackles + b.tackles,
   a.interceptions + b.interceptions, a.duels_won + b.duels_won,
   a.duels_lost + b.duels_lost, a.corners + b.corners, a.fouls + b.fouls,
   a.yellow_cards + b.yellow_cards, a.red_cards + b.red_cards, a.xg + b.xg⟩

/-- Add a delta onto a player entry (identity fields untouched). -/
def PlayerStats.addD (s : PlayerStats) (d : PDelta) : PlayerStats :=
  { s with
    goals := s.goals + d.goals, assists := s.assists + d.assists,
    shots := s.shots + d.shots,
    shots_on_target := s.shots_on_target + d.shots_on_target,
    passes_completed := s.passes_completed + d.passes_completed,
    passes_attempted := s.passes_attempted + d.passes_attempted,
    tackles := s.tackles + d.tackles,
    interceptions := s.interceptions + d.interceptions,
    duels_won := s.duels_won + d.duels_won,
    duels_lost := s.duels_lost + d.duels_lost,
    yellow_cards := s.yellow_cards + d.yellow_cards,
    red_cards := s.red_cards + d.red_cards,
    xg := s.xg + d.xg, xa := s.xa + d.xa }

/-- Add a delta onto a team entry (identity field untouched). -/
def TeamStats.addD (s : TeamStats) (d : TDelta) : TeamStats :=
  { s with
    goals := s.goals + d.goals, shots := s.shots + d.shots,
    shots_on_target := s.shots_on_target + d.shots_on_target,
    passes_completed := s.passes_completed + d.passes_completed,
    passes_attempted := s.passes_attempted + d.passes_attempted,
    tackles := s.tackles + d.tackles,
    interceptions := s.interceptions + d.interceptions,
    duels_won := s.duels_won + d.duels_won,
    duels_lost := s.duels_lost + d.duels_lost,
    corners := s.corners + d.corners, fouls := s.fouls + d.fouls,
    yellow_cards := s.yellow_cards + d.yellow_cards,
    red_cards := s.red_cards + d.red_cards, xg := s.xg + d.xg }

/-- Per-event player delta, branch by branch from the `elif` chain. -/
def playerDelta (e : Event) : PDelta :=
  if e.type = some "Shot" then
    { PDelta.zero with
      shots := 1,
      shots_on_target := if shotOnTarget e then 1 else 0,
      xg := (shotXg e).getD 0 }
  else if e.type = some "Pass" then
    { PDelta.zero with
      passes_completed := if passOutcomeName e ≠ some "Incomplete" then 1 else 0,
      passes_attempted := 1,
      assists := if passGoalAssist e = some true then 1 else 0,
      xa := if passGoalAssist e = some true then (passXg e).getD 0 else 0 }
  else if e.type = some "Goal" then { PDelta.zero with goals := 1 }
  else if e.type = some "Tackle" then { PDelta.zero with tackles := 1 }
  else if e.type = some "Interception" then
    { PDelta.zero with interceptions := 1 }
  else if e.type = some "Duel" then
    if duelOutcomeName e = some "Won" then { PDelta.zero with duels_won := 1 }
    else { PDelta.zero with duels_lost := 1 }
  else if e.type = some "Foul Committed" then
    if foulCardName e = some "Yellow Card" then
      { PDelta.zero with yellow_cards := 1 }
    else if foulCardName e = some "Red Card" then
      { PDelta.zero with red_cards := 1 }
    else PDelta.zero
  else PDelta.zero

/-- Per-event team delta. -/
def teamDelta (e : Event) : TDelta :=
  if e.type = some "Shot" then
    { TDelta.zero with
      shots := 1,
      shots_on_target := if shotOnTarget e then 1 else 0,
      xg := (shotXg e).getD 0 }
  else if e.type = some "Pass" then
    { TDelta.zero with
      passes_completed := if passOutcomeName e ≠ some "Incomplete" then 1 else 0,
      passes_attempted := 1 }
  else if e.type = some "Goal" then { TDelta.zero with goals := 1 }
  else if e.type = some "Tackle" then { TDelta.zero with tackles := 1 }
  else if e.type = some "Interception" then
    { TDelta.zero with interceptions := 1 }
  else if e.type = some "Duel" then
    if duelOutcomeName e = some "Won" then { TDelta.zero with duels_won := 1 }
    else { TDelta.zero with duels_lost := 1 }
  else if e.type = some "Corner" then { TDelta.zero with corners := 1 }
  else if e.type = some "Foul Committed" then
    { TDelta.zero with
      fouls := 1,
      yellow_cards := if foulCardName e = some "Yellow Card" then 1 else 0,
      red_cards := if foulCardName e = some "Yellow Card" then 0
        else if foulCardName e = some "Red Card" then 1 else 0 }
  else TDelta.zero

/-- Total delta of an event list. -/
def sumPDelta : List Event → PDelta
  | [] => PDelta.zero
  | e :: l => PDelta.add (playerDelta e) (sumPDelta l)

/-- Total team delta of an event list. -/
def sumTDelta : List Event → TDelta
  | [] => TDelta.zero
  | e :: l => TDelta.add (teamDelta e) (sumTDelta l)

theorem applyPlayer_addD (e : Event) (s : PlayerStats) :
    applyPlayer e s = s.addD (playerDelta e) := by
  by_cases h1 : e.type = some "Shot"
  · rcases hx : shotXg e with _ | x <;> by_cases h2 : shotOnTarget e <;>
      simp [applyPlayer, playerDelta, h1, hx, h2, PlayerStats.addD, PDelta.zero]
  by_cases h2 : e.type = some "Pass"
  · by_cases ho : passOutcomeName e = some "Incomplete" <;>
      by_cases hg : passGoalAssist e = some true <;>
      rcases hx : passXg e with _ | x <;>
      simp [applyPlayer, playerDelta, h1, h2, ho, hg, hx,
        PlayerStats.addD, PDelta.zero]
  by_cases h3 : e.type = some "Goal"
  · simp [applyPlayer, playerDelta, h1, h2, h3, PlayerStats.addD, PDelta.zero]
  by_cases h4 : e.type = some "Tackle"
  · simp [applyPlayer, playerDelta, h1, h2, h3, h4, PlayerStats.addD,
      PDelta.zero]
  by_cases h5 : e.type = some "Interception"
  · simp [applyPlayer, playerDelta, h1, h2, h3, h4, h5, PlayerStats.addD,
      PDelta.zero]
  by_cases h6 : e.type = some "Duel"
  · by_cases hd : duelOutcomeName e = some "Won" <;>
      simp [applyPlayer, playerDelta, h1, h2, h3, h4, h5, h6, hd,
        PlayerStats.addD, PDelta.zero]
  by_cases h7 : e.type = some "Foul Committed"
  · by_cases hy : foulCardName e = some "Yellow Card" <;>
      by_cases hr : foulCardName e = some "Red Card" <;>
      simp [applyPlayer, playerDelta, h1, h2, h3, h4, h5, h6, h7, hy, hr,
        PlayerStats.addD, PDelta.zero]
  simp [applyPlayer, playerDelta, h1, h2, h3, h4, h5, h6, h7,
    PlayerStats.addD, PDelta.zero]

theorem applyTeam_addD (e : Event) (s : TeamStats) :
    applyTeam e s = s.addD (teamDelta e) := by
  by_cases h1 : e.type = some "Shot"
  · rcases hx : shotXg e with _ | x <;> by_cases h2 : shotOnTarget e <;>
      simp [applyTeam, teamDelta, h1, hx, h2, TeamStats.addD, TDelta.zero]
  by_cases h2 : e.type = some "Pass"
  · by_cases ho : passOutcomeName e = some "Incomplete" <;>
      simp [applyTeam, teamDelta, h1, h2, ho, TeamStats.addD, TDelta.zero]
  by_cases h3 : e.type = some "Goal"
  · simp [applyTeam, teamDelta, h1, h2, h3, TeamStats.addD, TDelta.zero]
  by_cases h4 : e.type = some "Tackle"
  · simp [applyTeam, teamDelta, h1, h2, h3, h4, TeamStats.addD, TDelta.zero]
  by_cases h5 : e.type = some "Interception"
  · simp [applyTeam, teamDelta, h1, h2, h3, h4, h5, TeamStats.addD,
      TDelta.zero]
  by_cases h6 : e.type = some "Duel"
  · by_cases hd : duelOutcomeName e = some "Won" <;>
      simp [applyTeam, teamDelta, h1, h2, h3, h4, h5, h6, hd,
        TeamStats.addD, TDelta.zero]
  by_cases h7 : e.type = some "Corner"
  · simp [applyTeam, teamDelta, h1, h2, h3, h4, h5, h6, h7, TeamStats.addD,
      TDelta.zero]
  by_cases h8 : e.type = some "Foul Committed"
  · by_cases hy : foulCardName e = some "Yellow Card" <;>
      by_cases hr : foulCardName e = some "Red Card" <;>
      simp [applyTeam, teamDelta, h1, h2, h3, h4, h5, h6, h7, h8, hy, hr,
        TeamStats.addD, TDelta.zero]
  simp [applyTeam, teamDelta, h1, h2, h3, h4, h5, h6, h7, h8,
    TeamStats.addD, TDelta.zero]

theorem PDelta.pd_zero_add (d : PDelta) : PDelta.add PDelta.zero d = d := by
  cases d; simp [PDelta.add, PDelta.zero]

theorem PDelta.pd_add_comm (a b : PDelta) : PDelta.add a b = PDelta.add b a := by
  cases a; cases b; simp [PDelta.add, Nat.add_comm, add_comm]

theorem PDelta.pd_add_assoc (a b c : PDelta) :
    PDelta.add (PDelta.add a b) c = PDelta.add a (PDelta.add b c) := by
  cases a; cases b; cases c; simp [PDelta.add, Nat.add_assoc, add_assoc]

theorem TDelta.td_zero_add (d : TDelta) : TDelta.add TDelta.zero d = d := by
  cases d; simp [TDelta.add, TDelta.zero]

theorem TDelta.td_add_comm (a b : TDelta) : TDelta.add a b = TDelta.add b a := by
  cases a; cases b; simp [TDelta.add, Nat.add_comm, add_comm]

theorem TDelta.td_add_assoc (a b c : TDelta) :
    TDelta.add (TDelta.add a b) c = TDelta.add a (TDelta.add b c) := by
  cases a; cases b; cases c; simp [TDelta.add, Nat.add_assoc, add_assoc]

theorem PlayerStats.paddD_zero (s : PlayerStats) : s.addD PDelta.zero = s := by
  cases s; simp [PlayerStats.addD, PDelta.zero]

theorem PlayerStats.paddD_addD (s : PlayerStats) (d1 d2 : PDelta) :
    (s.addD d1).addD d2 = s.addD (d1.add d2) := by
  cases s; simp [PlayerStats.addD, PDelta.add, Nat.add_assoc, add_assoc]

theorem TeamStats.taddD_zero (s : TeamStats) : s.addD TDelta.zero = s := by
  cases s; simp [TeamStats.addD, TDelta.zero]

theorem TeamStats.taddD_addD (s : TeamStats) (d1 d2 : TDelta) :
    (s.addD d1).addD d2 = s.addD (d1.add d2) := by
  cases s; simp [TeamStats.addD, TDelta.add, Nat.add_assoc, add_assoc]

theorem sumPDelta_append (l1 l2 : List Event) :
    sumPDelta (l1 ++ l2) = PDelta.add (sumPDelta l1) (sumPDelta l2) := by
  induction l1 with
  | nil => simp [sumPDelta, PDelta.pd_zero_add]
  | cons e l ih => simp [sumPDelta, ih, PDelta.pd_add_assoc]

theorem sumTDelta_append (l1 l2 : List Event) :
    sumTDelta (l1 ++ l2) = TDelta.add (sumTDelta l1) (sumTDelta l2) := by
  induction l1 with
  | nil => simp [sumTDelta, TDelta.td_zero_add]
  | cons e l ih => simp [sumTDelta, ih, TDelta.td_add_assoc]

theorem sumPDelta_perm {l l' : List Event} (h : l.Perm l') :
    sumPDelta l = sumPDelta l' := by
  induction h with
  | nil => rfl
  | cons e _ ih => simp [sumPDelta, ih]
  | swap a b l =>
    simp only [sumPDelta, ← PDelta.pd_add_assoc]
    rw [PDelta.pd_add_comm (playerDelta b) (playerDelta a)]
  | trans _ _ ih1 ih2 => exact ih1.trans ih2

theorem sumTDelta_perm {l l' : List Event} (h : l.Perm l') :
    sumTDelta l = sumTDelta l' := by
  induction h with
  | nil => rfl
  | cons e _ ih => simp [sumTDelta, ih]
  | swap a b l =>
    simp only [sumTDelta, ← TDelta.td_add_assoc]
    rw [TDelta.td_add_comm (teamDelta b) (teamDelta a)]
  | trans _ _ ih1 ih2 => exact ih1.trans ih2

/-! ## Association-list lemmas -/

theorem alookup_append {α : Type} (k : String) (l1 l2 : List (String × α)) :
    alookup k (l1 ++ l2) = (alookup k l1).or (alookup k l2) := by
  induction l1 with
  | nil => simp [alookup]
  | cons p l ih =>
    by_cases h : p.1 = k <;> simp [alookup, h, ih]

theorem alookup_map_update_self {α : Type} (k : String) (f : α → α)
    (st : List (String × α)) :
    alookup k (st.map (fun p => if p.1 = k then (p.1, f p.2) else p)) =
      (alookup k st).map f := by
  induction st with
  | nil => simp [alookup]
  | cons p l ih =>
    by_cases h : p.1 = k <;> simp [alookup, h, ih]

theorem alookup_map_update_ne {α : Type} {k k' : String} (hkk : k ≠ k')
    (f : α → α) (st : List (String × α)) :
    alookup k (st.map (fun p => if p.1 = k' then (p.1, f p.2) else p)) =
      alookup k st := by
  induction st with
  | nil => simp [alookup]
  | cons p l ih =>
    by_cases h : p.1 = k'
    · have : ¬ p.1 = k := by rw [h]; exact fun hk => hkk hk.symm
      simp [alookup, h, this, ih, Ne.symm hkk]
    · by_cases h2 : p.1 = k <;> simp [alookup, h, h2, ih, hkk]

/-! ## Step lemmas: effect of one event on one key of the map -/

theorem playerStep_skipped (e : Event) (st : List (String × PlayerStats))
    (h : keyOf e.player = none) : playerStep st e = st := by
  simp [playerStep, h]

theorem teamStep_skipped (e : Event) (st : List (String × TeamStats))
    (h : keyOf e.team = none) : teamStep st e = st := by
  simp [teamStep, h]

theorem alookup_playerStep_self (e : Event) (st : List (String × PlayerStats))
    (k : String) (h : keyOf e.player = some k) :
    alookup k (playerStep st e) =
      some (applyPlayer e ((alookup k st).getD (initPlayer k e.team))) := by
  unfold playerStep
  rw [h]
  cases hs : alookup k st with
  | some s => simp [hs, alookup_map_update_self]
  | none =>
    simp only [hs, Option.isSome_none, Bool.false_eq_true, if_false]
    rw [alookup_map_update_self, alookup_append]
    simp [hs, alookup]

theorem alookup_playerStep_ne (e : Event) (st : List (String × PlayerStats))
    (k : String) (h : keyOf e.player ≠ some k) :
    alookup k (playerStep st e) = alookup k st := by
  unfold playerStep
  cases hk : keyOf e.player with
  | none => rfl
  | some k' =>
    have hne : k ≠ k' := by rw [hk] at h; exact fun hkk => h (by rw [hkk])
    rw [alookup_map_update_ne hne]
    cases hs : alookup k' st with
    | some s => simp [hs]
    | none =>
      simp only [hs, Option.isSome_none, Bool.false_eq_true, if_false]
      rw [alookup_append]
      simp [alookup, hne.symm]

theorem alookup_teamStep_self (e : Event) (st : List (String × TeamStats))
    (k : String) (h : keyOf e.team = some k) :
    alookup k (teamStep st e) =
      some (applyTeam e ((alookup k st).getD (initTeam k))) := by
  unfold teamStep
  rw [h]
  cases hs : alookup k st with
  | some s => simp [hs, alookup_map_update_self]
  | none =>
    simp only [hs, Option.isSome_none, Bool.false_eq_true, if_false]
    rw [alookup_map_update_self, alookup_append]
    simp [hs, alookup]

theorem alookup_teamStep_ne (e : Event) (st : List (String × TeamStats))
    (k : String) (h : keyOf e.team ≠ some k) :
    alookup k (teamStep st e) = alookup k st := by
  unfold teamStep
  cases hk : keyOf e.team with
  | none => rfl
  | some k' =>
    have hne : k ≠ k' := by rw [hk] at h; exact fun hkk => h (by rw [hkk])
    rw [alookup_map_update_ne hne]
    cases hs : alookup k' st with
    | some s => simp [hs]
    | none =>
      simp only [hs, Option.isSome_none, Bool.false_eq_true, if_false]
      rw [alookup_append]
      simp [alookup, hne.symm]

/-! ## Localization: one key's entry depends only on that key's events -/

/-- The subsequence of events attributed to player key `k`. -/
def pEvents (k : String) (l : List Event) : List Event :=
  l.filter (fun e => keyOf e.player == some k)

/-- The subsequence of events attributed to team key `k`. -/
def tEvents (k : String) (l : List Event) : List Event :=
  l.filter (fun e => keyOf e.team == some k)

/-- Evolution of a single player entry under its own events. -/
def runP (k : String) : Option PlayerStats → List Event → Option PlayerStats
  | o, [] => o
  | o, e :: l => runP k (some (applyPlayer e (o.getD (initPlayer k e.team)))) l

/-- Evolution of a single team entry under its own events. -/
def runT (k : String) : Option TeamStats → List Event → Option TeamStats
  | o, [] => o
  | o, e :: l => runT k (some (applyTeam e (o.getD (initTeam k)))) l

theorem alookup_foldl_playerStep (k : String) :
    ∀ (l : List Event) (st : List (String × PlayerStats)),
      alookup k (List.foldl playerStep st l) =
        runP k (alookup k st) (pEvents k l) := by
  intro l
  induction l with
  | nil => intro st; rfl
  | cons e l ih =>
    intro st
    by_cases h : keyOf e.player = some k
    · have hp : pEvents k (e :: l) = e :: pEvents k l := by
        simp [pEvents, List.filter_cons, h]
      rw [List.foldl_cons, ih, alookup_playerStep_self e st k h, hp]
      rfl
    · have hp : pEvents k (e :: l) = pEvents k l := by
        simp [pEvents, List.filter_cons, h]
      rw [List.foldl_cons, ih, alookup_playerStep_ne e st k h, hp]

theorem alookup_foldl_teamStep (k : String) :
    ∀ (l : List Event) (st : List (String × TeamStats)),
      alookup k (List.foldl teamStep st l) =
        runT k (alookup k st) (tEvents k l) := by
  intro l
  induction l with
  | nil => intro st; rfl
  | cons e l ih =>
    intro st
    by_cases h : keyOf e.team = some k
    · have hp : tEvents k (e :: l) = e :: tEvents k l := by
        simp [tEvents, List.filter_cons, h]
      rw [List.foldl_cons, ih, alookup_teamStep_self e st k h, hp]
      rfl
    · have hp : tEvents k (e :: l) = tEvents k l := by
        simp [tEvents, List.filter_cons, h]
      rw [List.foldl_cons, ih, alookup_teamStep_ne e st k h, hp]

theorem runP_some (k : String) :
    ∀ (l : List Event) (s : PlayerStats),
      runP k (some s) l = some (s.addD (sumPDelta l)) := by
  intro l
  induction l with
  | nil => intro s; simp [runP, sumPDelta, PlayerStats.paddD_zero]
  | cons e l ih =>
    intro s
    simp only [runP, Option.getD_some]
    rw [applyPlayer_addD, ih, PlayerStats.paddD_addD]
    rfl

theorem runT_some (k : String) :
    ∀ (l : List Event) (s : TeamStats),
      runT k (some s) l = some (s.addD (sumTDelta l)) := by
  intro l
  induction l with
  | nil => intro s; simp [runT, sumTDelta, TeamStats.taddD_zero]
  | cons e l ih =>
    intro s
    simp only [runT, Option.getD_some]
    rw [applyTeam_addD, ih, TeamStats.taddD_addD]
    rfl

/-- Closed form of `get_player_stats`: the entry for key `k` exists iff
some event is attributed to `k`; its `team` is the first such event's
team and its counters are the summed per-event deltas. -/
theorem playerStats_char (l : List Event) (k : String) :
    alookup k (playerStats l) =
      (pEvents k l).head?.map
        (fun e0 => (initPlayer k e0.team).addD (sumPDelta (pEvents k l))) := by
  have h0 : alookup k (playerStats l) = runP k none (pEvents k l) :=
    alookup_foldl_playerStep k l []
  rw [h0]
  cases hp : pEvents k l with
  | nil => rfl
  | cons e0 es =>
    simp only [runP, Option.getD_none, List.head?, Option.map_some']
    rw [applyPlayer_addD, runP_some, PlayerStats.paddD_addD]
    rfl

/-- Closed form of `get_team_stats`. -/
theorem teamStats_char (l : List Event) (k : String) :
    alookup k (teamStats l) =
      (tEvents k l).head?.map
        (fun _ => (initTeam k).addD (sumTDelta (tEvents k l))) := by
  have h0 : alookup k (teamStats l) = runT k none (tEvents k l) :=
    alookup_foldl_teamStep k l []
  rw [h0]
  cases hp : tEvents k l with
  | nil => rfl
  | cons e0 es =>
    simp only [runT, Option.getD_none, List.head?, Option.map_some']
    rw [applyTeam_addD, runT_some, TeamStats.taddD_addD]
    rfl

/-- A resolvable key comes from a literally equal, non-empty field. -/
theorem keyOf_eq_some {o : Option String} {k : String}
    (h : keyOf o = some k) : o = some k ∧ k ≠ "" := by
  cases o with
  | none => simp [keyOf] at h
  | some s =>
    by_cases hs : s = ""
    · simp [keyOf, hs] at h
    · simp only [keyOf, hs, if_false] at h
      obtain rfl : s = k := Option.some.injEq .. ▸ h
      exact ⟨rfl, hs⟩

/-- The empty string is never a resolvable key. -/
theorem keyOf_ne_empty (o : Option String) : keyOf o ≠ some "" := by
  cases o with
  | none => simp [keyOf]
  | some s => by_cases hs : s = "" <;> simp [keyOf, hs]

/-! ## Membership invariants over the accumulation loop -/

theorem mem_playerStep {P : PlayerStats → Prop} {e : Event}
    {st : List (String × PlayerStats)}
    (hinit : ∀ k t, P (initPlayer k t))
    (happ : ∀ s, P s → P (applyPlayer e s))
    (hst : ∀ p ∈ st, P p.2) :
    ∀ p ∈ playerStep st e, P p.2 := by
  intro p hp
  unfold playerStep at hp
  cases hk : keyOf e.player with
  | none => rw [hk] at hp; exact hst p hp
  | some k =>
    rw [hk] at hp
    simp only [List.mem_map] at hp
    obtain ⟨q, hq, rfl⟩ := hp
    cases hs : alookup k st with
    | some s =>
      rw [hs] at hq
      simp only [Option.isSome_some, if_true] at hq
      by_cases hq1 : q.1 = k <;> simp only [hq1, if_true, if_false]
      · exact happ _ (hst q hq)
      · exact hst q hq
    | none =>
      rw [hs] at hq
      simp only [Option.isSome_none, Bool.false_eq_true, if_false,
        List.mem_append, List.mem_singleton] at hq
      rcases hq with hq | rfl
      · by_cases hq1 : q.1 = k <;> simp only [hq1, if_true, if_false]
        · exact happ _ (hst q hq)
        · exact hst q hq
      · simp only [if_pos rfl]
        exact happ _ (hinit k e.team)

theorem mem_teamStep {P : TeamStats → Prop} {e : Event}
    {st : List (String × TeamStats)}
    (hinit : ∀ k, P (initTeam k))
    (happ : ∀ s, P s → P (applyTeam e s))
    (hst : ∀ p ∈ st, P p.2) :
    ∀ p ∈ teamStep st e, P p.2 := by
  intro p hp
  unfold teamStep at hp
  cases hk : keyOf e.team with
  | none => rw [hk] at hp; exact hst p hp
  | some k =>
    rw [hk] at hp
    simp only [List.mem_map] at hp
    obtain ⟨q, hq, rfl⟩ := hp
    cases hs : alookup k st with
    | some s =>
      rw [hs] at hq
      simp only [Option.isSome_some, if_true] at hq
      by_cases hq1 : q.1 = k <;> simp only [hq1, if_true, if_false]
      · exact happ _ (hst q hq)
      · exact hst q hq
    | none =>
      rw [hs] at hq
      simp only [Option.isSome_none, Bool.false_eq_true, if_false,
        List.mem_append, List.mem_singleton] at hq
      rcases hq with hq | rfl
      · by_cases hq1 : q.1 = k <;> simp only [hq1, if_true, if_false]
        · exact happ _ (hst q hq)
        · exact hst q hq
      · simp only [if_pos rfl]
        exact happ _ (hinit k)

theorem foldl_playerStep_inv {P : PlayerStats → Prop} {Q : Event → Prop}
    (hinit : ∀ k t, P (initPlayer k t))
    (happ : ∀ e s, Q e → P s → P (applyPlayer e s)) :
    ∀ (l : List Event) (st : List (String × PlayerStats)),
      (∀ e ∈ l, Q e) → (∀ p ∈ st, P p.2) →
      ∀ p ∈ List.foldl playerStep st l, P p.2 := by
  intro l
  induction l with
  | nil => intro st _ hst p hp; exact hst p hp
  | cons e l ih =>
    intro st hl hst
    exact ih (playerStep st e)
      (fun e' he' => hl e' (List.mem_cons_of_mem _ he'))
      (mem_playerStep hinit
        (fun s hs => happ e s (hl e (List.mem_cons_self _ _)) hs) hst)

theorem foldl_teamStep_inv {P : TeamStats → Prop} {Q : Event → Prop}
    (hinit : ∀ k, P (initTeam k))
    (happ : ∀ e s, Q e → P s → P (applyTeam e s)) :
    ∀ (l : List Event) (st : List (String × TeamStats)),
      (∀ e ∈ l, Q e) → (∀ p ∈ st, P p.2) →
      ∀ p ∈ List.foldl teamStep st l, P p.2 := by
  intro l
  induction l with
  | nil => intro st _ hst p hp; exact hst p hp
  | cons e l ih =>
    intro st hl hst
    exact ih (teamStep st e)
      (fun e' he' => hl e' (List.mem_cons_of_mem _ he'))
      (mem_teamStep hinit
        (fun s hs => happ e s (hl e (List.mem_cons_self _ _)) hs) hst)

/-! ## Per-delta bounds -/

theorem playerDelta_pc_le_pa (e : Event) :
    (playerDelta e).passes_completed ≤ (playerDelta e).passes_attempted := by
  unfold playerDelta
  repeat' split
  all_goals simp [PDelta.zero]

theorem teamDelta_pc_le_pa (e : Event) :
    (teamDelta e).passes_completed ≤ (teamDelta e).passes_attempted := by
  unfold teamDelta
  repeat' split
  all_goals simp [TDelta.zero]

/-- All `statsbomb_xg` values present on the event are non-negative. -/
def xgOk (e : Event) : Prop :=
  0 ≤ (shotXg e).getD 0 ∧ 0 ≤ (passXg e).getD 0

instance (e : Event) : Decidable (xgOk e) := by
  unfold xgOk; infer_instance

theorem playerDelta_xg_nonneg (e : Event) (h : xgOk e) :
    0 ≤ (playerDelta e).xg ∧ 0 ≤ (playerDelta e).xa := by
  obtain ⟨h1, h2⟩ := h
  unfold playerDelta
  repeat' split
  all_goals simp_all [PDelta.zero]

theorem teamDelta_xg_nonneg (e : Event) (h : xgOk e) :
    0 ≤ (teamDelta e).xg := by
  obtain ⟨h1, h2⟩ := h
  unfold teamDelta
  repeat' split
  all_goals simp_all [TDelta.zero]

theorem sumPDelta_xg_nonneg (l : List Event) (h : ∀ e ∈ l, xgOk e) :
    0 ≤ (sumPDelta l).xg ∧ 0 ≤ (sumPDelta l).xa := by
  induction l with
  | nil => simp [sumPDelta, PDelta.zero]
  | cons e l ih =>
    have he := playerDelta_xg_nonneg e (h e (List.mem_cons_self _ _))
    have hl := ih (fun e' he' => h e' (List.mem_cons_of_mem _ he'))
    exact ⟨add_nonneg he.1 hl.1, add_nonneg he.2 hl.2⟩

theorem sumTDelta_xg_nonneg (l : List Event) (h : ∀ e ∈ l, xgOk e) :
    0 ≤ (sumTDelta l).xg := by
  induction l with
  | nil => simp [sumTDelta, TDelta.zero]
  | cons e l ih =>
    have he := teamDelta_xg_nonneg e (h e (List.mem_cons_self _ _))
    have hl := ih (fun e' he' => h e' (List.mem_cons_of_mem _ he'))
    exact add_nonneg he hl

/-! ## Pointwise order on aggregates -/

/-- All counters and accumulators of `s` bounded by those of `t`
(identity fields not compared). -/
def PlayerStats.le (s t : PlayerStats) : Prop :=
  s.goals ≤ t.goals ∧ s.assists ≤ t.assists ∧ s.shots ≤ t.shots ∧
  s.shots_on_target ≤ t.shots_on_target ∧
  s.passes_completed ≤ t.passes_completed ∧
  s.passes_attempted ≤ t.passes_attempted ∧ s.tackles ≤ t.tackles ∧
  s.interceptions ≤ t.interceptions ∧ s.duels_won ≤ t.duels_won ∧
  s.duels_lost ≤ t.duels_lost ∧ s.yellow_cards ≤ t.yellow_cards ∧
  s.red_cards ≤ t.red_cards ∧ s.xg ≤ t.xg ∧ s.xa ≤ t.xa

def TeamStats.le (s t : TeamStats) : Prop :=
  s.goals ≤ t.goals ∧ s.shots ≤ t.shots ∧
  s.shots_on_target ≤ t.shots_on_target ∧
  s.passes_completed ≤ t.passes_completed ∧
  s.passes_attempted ≤ t.passes_attempted ∧ s.tackles ≤ t.tackles ∧
  s.interceptions ≤ t.interceptions ∧ s.duels_won ≤ t.duels_won ∧
  s.duels_lost ≤ t.duels_lost ∧ s.corners ≤ t.corners ∧
  s.fouls ≤ t.fouls ∧ s.yellow_cards ≤ t.yellow_cards ∧
  s.red_cards ≤ t.red_cards ∧ s.xg ≤ t.xg

theorem PlayerStats.ple_addD (s : PlayerStats) (d : PDelta)
    (hxg : 0 ≤ d.xg) (hxa : 0 ≤ d.xa) : s.le (s.addD d) := by
  unfold PlayerStats.le PlayerStats.addD
  exact ⟨Nat.le_add_right _ _, Nat.le_add_right _ _, Nat.le_add_right _ _,
    Nat.le_add_right _ _, Nat.le_add_right _ _, Nat.le_add_right _ _,
    Nat.le_add_right _ _, Nat.le_add_right _ _, Nat.le_add_right _ _,
    Nat.le_add_right _ _, Nat.le_add_right _ _, Nat.le_add_right _ _,
    le_add_of_nonneg_right hxg, le_add_of_nonneg_right hxa⟩

theorem TeamStats.tle_addD (s : TeamStats) (d : TDelta)
    (hxg : 0 ≤ d.xg) : s.le (s.addD d) := by
  unfold TeamStats.le TeamStats.addD
  exact ⟨Nat.le_add_right _ _, Nat.le_add_right _ _, Nat.le_add_right _ _,
    Nat.le_add_right _ _, Nat.le_add_right _ _, Nat.le_add_right _ _,
    Nat.le_add_right _ _, Nat.le_add_right _ _, Nat.le_add_right _ _,
    Nat.le_add_right _ _, Nat.le_add_right _ _, Nat.le_add_right _ _,
    Nat.le_add_right _ _, le_add_of_nonneg_right hxg⟩

/-- The counters-only part of the order: every integer counter of `s`
bounded by that of `t` (`xg`/`xa` not compared). -/
def PlayerStats.leC (s t : PlayerStats) : Prop :=
  s.goals ≤ t.goals ∧ s.assists ≤ t.assists ∧ s.shots ≤ t.shots ∧
  s.shots_on_target ≤ t.shots_on_target ∧
  s.passes_completed ≤ t.passes_completed ∧
  s.passes_attempted ≤ t.passes_attempted ∧ s.tackles ≤ t.tackles ∧
  s.interceptions ≤ t.interceptions ∧ s.duels_won ≤ t.duels_won ∧
  s.duels_lost ≤ t.duels_lost ∧ s.yellow_cards ≤ t.yellow_cards ∧
  s.red_cards ≤ t.red_cards

def TeamStats.leC (s t : TeamStats) : Prop :=
  s.goals ≤ t.goals ∧ s.shots ≤ t.shots ∧
  s.shots_on_target ≤ t.shots_on_target ∧
  s.passes_completed ≤ t.passes_completed ∧
  s.passes_attempted ≤ t.passes_attempted ∧ s.tackles ≤ t.tackles ∧
  s.interceptions ≤ t.interceptions ∧ s.duels_won ≤ t.duels_won ∧
  s.duels_lost ≤ t.duels_lost ∧ s.corners ≤ t.corners ∧
  s.fouls ≤ t.fouls ∧ s.yellow_cards ≤ t.yellow_cards ∧
  s.red_cards ≤ t.red_cards

/-- Counters never decrease under any delta — no hypothesis needed. -/
theorem PlayerStats.pleC_addD (s : PlayerStats) (d : PDelta) :
    s.leC (s.addD d) := by
  unfold PlayerStats.leC PlayerStats.addD
  exact ⟨Nat.le_add_right _ _, Nat.le_add_right _ _, Nat.le_add_right _ _,
    Nat.le_add_right _ _, Nat.le_add_right _ _, Nat.le_add_right _ _,
    Nat.le_add_right _ _, Nat.le_add_right _ _, Nat.le_add_right _ _,
    Nat.le_add_right _ _, Nat.le_add_right _ _, Nat.le_add_right _ _⟩

theorem TeamStats.tleC_addD (s : TeamStats) (d : TDelta) :
    s.leC (s.addD d) := by
  unfold TeamStats.leC TeamStats.addD
  exact ⟨Nat.le_add_right _ _, Nat.le_add_right _ _, Nat.le_add_right _ _,
    Nat.le_add_right _ _, Nat.le_add_right _ _, Nat.le_add_right _ _,
    Nat.le_add_right _ _, Nat.le_add_right _ _, Nat.le_add_right _ _,
    Nat.le_add_right _ _, Nat.le_add_right _ _, Nat.le_add_right _ _,
    Nat.le_add_right _ _⟩

/-- Extending the processed sequence rewrites a present player entry to
itself plus the summed deltas of the extension's events for that key. -/
theorem alookup_playerStats_append (l1 l2 : List Event) (k : String)
    (s : PlayerStats) (hs : alookup k (playerStats l1) = some s) :
    alookup k (playerStats (l1 ++ l2)) =
      some (s.addD (sumPDelta (pEvents k l2))) := by
  have hc1 := playerStats_char l1 k
  rw [hs] at hc1
  have hsplit : pEvents k (l1 ++ l2) = pEvents k l1 ++ pEvents k l2 := by
    simp [pEvents]
  cases hpe : pEvents k l1 with
  | nil => rw [hpe] at hc1; simp at hc1
  | cons e0 es =>
    rw [hpe] at hc1
    simp only [List.head?, Option.map_some', Option.some.injEq] at hc1
    have hc2 := playerStats_char (l1 ++ l2) k
    rw [hsplit, hpe] at hc2
    have hhead : ((e0 :: es) ++ pEvents k l2).head? = some e0 := by simp
    rw [hhead] at hc2
    simp only [Option.map_some'] at hc2
    rw [sumPDelta_append, ← PlayerStats.paddD_addD] at hc2
    rw [show (initPlayer k e0.team).addD (sumPDelta (e0 :: es)) = s from
      hc1.symm] at hc2
    exact hc2

/-- Team version of `alookup_playerStats_append`. -/
theorem alookup_teamStats_append (l1 l2 : List Event) (k : String)
    (s : TeamStats) (hs : alookup k (teamStats l1) = some s) :
    alookup k (teamStats (l1 ++ l2)) =
      some (s.addD (sumTDelta (tEvents k l2))) := by
  have hc1 := teamStats_char l1 k
  rw [hs] at hc1
  have hsplit : tEvents k (l1 ++ l2) = tEvents k l1 ++ tEvents k l2 := by
    simp [tEvents]
  cases hpe : tEvents k l1 with
  | nil => rw [hpe] at hc1; simp at hc1
  | cons e0 es =>
    rw [hpe] at hc1
    simp only [List.head?, Option.map_some', Option.some.injEq] at hc1
    have hc2 := teamStats_char (l1 ++ l2) k
    rw [hsplit, hpe] at hc2
    have hhead : ((e0 :: es) ++ tEvents k l2).head? = some e0 := by simp
    rw [hhead] at hc2
    simp only [Option.map_some'] at hc2
    rw [sumTDelta_append, ← TeamStats.taddD_addD] at hc2
    rw [show (initTeam k).addD (sumTDelta (e0 :: es)) = s from
      hc1.symm] at hc2
    exact hc2

/-! ## Exception-explicit model

`get_player_stats` / `get_team_stats` wrap the loop in `try/except`, but
the claim is that the loop body itself never raises on malformed events.
The only subscript (raising) accesses are `shot["statsbomb_xg"]` and
`pass_event["statsbomb_xg"]`, both guarded by `"statsbomb_xg" in ...`;
every other access is a raise-free `.get` with a default.  The `E`
variants below make the subscripts explicit `Except` failures and
propagate them outward; the theorems prove the scan always returns `ok`. -/

/-- Python dict subscript `d["statsbomb_xg"]`: `KeyError` when absent. -/
def getItem (o : Option ℚ) : Except String ℚ :=
  match o with
  | some x => Except.ok x
  | none => Except.error "KeyError"

/-- `applyPlayer` with the guarded subscripts modelled in `Except`. -/
def applyPlayerE (e : Event) (s : PlayerStats) : Except String PlayerStats :=
  if e.type = some "Shot" then
    let s := { s with shots := s.shots + 1 }
    let s := if shotOnTarget e then
        { s with shots_on_target := s.shots_on_target + 1 } else s
    if (shotXg e).isSome then
      match getItem (shotXg e) with
      | Except.error m => Except.error m
      | Except.ok x => Except.ok { s with xg := s.xg + x }
    else Except.ok s
  else if e.type = some "Pass" then
    let s := if passOutcomeName e ≠ some "Incomplete" then
        { s with passes_completed := s.passes_completed + 1 } else s
    let s := { s with passes_attempted := s.passes_attempted + 1 }
    if passGoalAssist e = some true then
      let s := { s with assists := s.assists + 1 }
      if (passXg e).isSome then
        match getItem (passXg e) with
        | Except.error m => Except.error m
        | Except.ok x => Except.ok { s with xa := s.xa + x }
      else Except.ok s
    else Except.ok s
  else if e.type = some "Goal" then
    Except.ok { s with goals := s.goals + 1 }
  else if e.type = some "Tackle" then
    Except.ok { s with tackles := s.tackles + 1 }
  else if e.type = some "Interception" then
    Except.ok { s with interceptions := s.interceptions + 1 }
  else if e.type = some "Duel" then
    if duelOutcomeName e = some "Won" then
      Except.ok { s with duels_won := s.duels_won + 1 }
    else
      Except.ok { s with duels_lost := s.duels_lost + 1 }
  else if e.type = some "Foul Committed" then
    if foulCardName e = some "Yellow Card" then
      Except.ok { s with yellow_cards := s.yellow_cards + 1 }
    else if foulCardName e = some "Red Card" then
      Except.ok { s with red_cards := s.red_cards + 1 }
    else Except.ok s
  else Except.ok s

/-- `applyTeam` with the guarded subscript modelled in `Except`. -/
def applyTeamE (e : Event) (s : TeamStats) : Except String TeamStats :=
  if e.type = some "Shot" then
    let s := { s with shots := s.shots + 1 }
    let s := if shotOnTarget e then
        { s with shots_on_target := s.shots_on_target + 1 } else s
    if (shotXg e).isSome then
      match getItem (shotXg e) with
      | Except.error m => Except.error m
      | Except.ok x => Except.ok { s with xg := s.xg + x }
    else Except.ok s
  else if e.type = some "Pass" then
    let s := if passOutcomeName e ≠ some "Incomplete" then
        { s with passes_completed := s.passes_completed + 1 } else s
    Except.ok { s with passes_attempted := s.passes_attempted + 1 }
  else if e.type = some "Goal" then
    Except.ok { s with goals := s.goals + 1 }
  else if e.type = some "Tackle" then
    Except.ok { s with tackles := s.tackles + 1 }
  else if e.type = some "Interception" then
    Except.ok { s with interceptions := s.interceptions + 1 }
  else if e.type = some "Duel" then
    if duelOutcomeName e = some "Won" then
      Except.ok { s with duels_won := s.duels_won + 1 }
    else
      Except.ok { s with duels_lost := s.duels_lost + 1 }
  else if e.type = some "Corner" then
    Except.ok { s with corners := s.corners + 1 }
  else if e.type = some "Foul Committed" then
    let s := { s with fouls := s.fouls + 1 }
    if foulCardName e = some "Yellow Card" then
      Except.ok { s with yellow_cards := s.yellow_cards + 1 }
    else if foulCardName e = some "Red Card" then
      Except.ok { s with red_cards := s.red_cards + 1 }
    else Except.ok s
  else Except.ok s

/-- Update every entry of the map through a fallible function,
propagating the first failure. -/
def mapE {A B : Type} (f : A → Except String B) : List A → Except String (List B)
  | [] => Except.ok []
  | a :: l =>
    match f a with
    | Except.error m => Except.error m
    | Except.ok b =>
      match mapE f l with
      | Except.error m => Except.error m
      | Except.ok l2 => Except.ok (b :: l2)

/-- Left fold through a fallible step, propagating the first failure. -/
def foldE {S A : Type} (f : S → A → Except String S) : S → List A → Except String S
  | st, [] => Except.ok st
  | st, a :: l =>
    match f st a with
    | Except.error m => Except.error m
    | Except.ok st2 => foldE f st2 l

/-- One loop iteration, exceptions explicit. -/
def playerStepE (st : List (String × PlayerStats)) (e : Event) :
    Except String (List (String × PlayerStats)) :=
  match keyOf e.player with
  | none => Except.ok st
  | some k =>
    let st1 := if (alookup k st).isSome then st
               else st ++ [(k, initPlayer k e.team)]
    mapE (fun p =>
      if p.1 = k then
        match applyPlayerE e p.2 with
        | Except.error m => Except.error m
        | Except.ok v => Except.ok (p.1, v)
      else Except.ok p) st1

/-- One loop iteration of the team scan, exceptions explicit. -/
def teamStepE (st : List (String × TeamStats)) (e : Event) :
    Except String (List (String × TeamStats)) :=
  match keyOf e.team with
  | none => Except.ok st
  | some k =>
    let st1 := if (alookup k st).isSome then st
               else st ++ [(k, initTeam k)]
    mapE (fun p =>
      if p.1 = k then
        match applyTeamE e p.2 with
        | Except.error m => Except.error m
        | Except.ok v => Except.ok (p.1, v)
      else Except.ok p) st1

/-- The whole player scan, exceptions explicit. -/
def playerStatsE (events : List Event) :
    Except String (List (String × PlayerStats)) :=
  foldE playerStepE [] events

/-- The whole team scan, exceptions explicit. -/
def teamStatsE (events : List Event) :
    Except String (List (String × TeamStats)) :=
  foldE teamStepE [] events

theorem applyPlayerE_ok (e : Event) (s : PlayerStats) :
    applyPlayerE e s = Except.ok (applyPlayer e s) := by
  unfold applyPlayerE applyPlayer
  by_cases h1 : e.type = some "Shot"
  · rcases hx : shotXg e with _ | x <;> simp [h1, hx, getItem]
  by_cases h2 : e.type = some "Pass"
  · by_cases hg : passGoalAssist e = some true <;>
      rcases hx : passXg e with _ | x <;>
      simp [h1, h2, hg, hx, getItem]
  by_cases h3 : e.type = some "Goal"
  · simp [h1, h2, h3]
  by_cases h4 : e.type = some "Tackle"
  · simp [h1, h2, h3, h4]
  by_cases h5 : e.type = some "Interception"
  · simp [h1, h2, h3, h4, h5]
  by_cases h6 : e.type = some "Duel"
  · by_cases hd : duelOutcomeName e = some "Won" <;>
      simp [h1, h2, h3, h4, h5, h6, hd]
  by_cases h7 : e.type = some "Foul Committed"
  · by_cases hy : foulCardName e = some "Yellow Card" <;>
      by_cases hr : foulCardName e = some "Red Card" <;>
      simp [h1, h2, h3, h4, h5, h6, h7, hy, hr]
  simp [h1, h2, h3, h4, h5, h6, h7]

theorem applyTeamE_ok (e : Event) (s : TeamStats) :
    applyTeamE e s = Except.ok (applyTeam e s) := by
  unfold applyTeamE applyTeam
  by_cases h1 : e.type = some "Shot"
  · rcases hx : shotXg e with _ | x <;> simp [h1, hx, getItem]
  by_cases h2 : e.type = some "Pass"
  · simp [h1, h2]
  by_cases h3 : e.type = some "Goal"
  · simp [h1, h2, h3]
  by_cases h4 : e.type = some "Tackle"
  · simp [h1, h2, h3, h4]
  by_cases h5 : e.type = some "Interception"
  · simp [h1, h2, h3, h4, h5]
  by_cases h6 : e.type = some "Duel"
  · by_cases hd : duelOutcomeName e = some "Won" <;>
      simp [h1, h2, h3, h4, h5, h6, hd]
  by_cases h7 : e.type = some "Corner"
  · simp [h1, h2, h3, h4, h5, h6, h7]
  by_cases h8 : e.type = some "Foul Committed"
  · by_cases hy : foulCardName e = some "Yellow Card" <;>
      by_cases hr : foulCardName e = some "Red Card" <;>
      simp [h1, h2, h3, h4, h5, h6, h7, h8, hy, hr]
  simp [h1, h2, h3, h4, h5, h6, h7, h8]

theorem mapE_ok {A B : Type} (f : A → Except String B) (g : A → B)
    (h : ∀ a, f a = Except.ok (g a)) :
    ∀ l : List A, mapE f l = Except.ok (l.map g) := by
  intro l
  induction l with
  | nil => rfl
  | cons a l ih => simp [mapE, h a, ih]

theorem playerStepE_ok (st : List (String × PlayerStats)) (e : Event) :
    playerStepE st e = Except.ok (playerStep st e) := by
  unfold playerStepE playerStep
  cases keyOf e.player with
  | none => rfl
  | some k =>
    exact mapE_ok _ _
      (fun p => by by_cases hp : p.1 = k <;> simp [hp, applyPlayerE_ok]) _

theorem teamStepE_ok (st : List (String × TeamStats)) (e : Event) :
    teamStepE st e = Except.ok (teamStep st e) := by
  unfold teamStepE teamStep
  cases keyOf e.team with
  | none => rfl
  | some k =>
    exact mapE_ok _ _
      (fun p => by by_cases hp : p.1 = k <;> simp [hp, applyTeamE_ok]) _

theorem foldE_playerStepE_ok :
    ∀ (l : List Event) (st : List (String × PlayerStats)),
      foldE playerStepE st l = Except.ok (List.foldl playerStep st l) := by
  intro l
  induction l with
  | nil => intro st; rfl
  | cons e l ih =>
    intro st
    simp [foldE, playerStepE_ok, List.foldl_cons, ih]

theorem foldE_teamStepE_ok :
    ∀ (l : List Event) (st : List (String × TeamStats)),
      foldE teamStepE st l = Except.ok (List.foldl teamStep st l) := by
  intro l
  induction l with
  | nil => intro st; rfl
  | cons e l ih =>
    intro st
    simp [foldE, teamStepE_ok, List.foldl_cons, ih]

/-! ## Concrete events for examples, witnesses and counterexamples -/

/-- An event with every field absent. -/
def nullEvent : Event := ⟨none, none, none, none, none, none, none⟩

/-- `{type: Pass, player: "A", team: "X", pass: {}}`. -/
def evPass : Event :=
  { nullEvent with
    type := some "Pass", player := some "A", team := some "X",
    pass := some PassObj.empty }

/-- `{type: Shot, player: "A", team: "X",
     shot: {outcome: {name: "Goal"}, statsbomb_xg: 0.73}}`. -/
def evShot : Event :=
  { nullEvent with
    type := some "Shot", player := some "A", team := some "X",
    shot := some ⟨some ⟨some "Goal"⟩, some (0.73 : ℚ)⟩ }

/-- `{type: Goal, player: "A", team: "X"}`. -/
def evGoal : Event :=
  { nullEvent with
    type := some "Goal", player := some "A", team := some "X" }

/-! ## The claims -/

/-- C1: on the three-event sequence Pass/Shot/Goal for player "A" of team
"X", the player aggregation yields exactly one aggregate, for "A", with
`passes_attempted=1, passes_completed=1, shots=1, shots_on_target=1,
xg=0.73, goals=1` and every other counter zero, and the team aggregation
yields exactly one aggregate, for "X", with the team-scoped equivalents
plus `goals=1`. -/
theorem claim1_example_sequence :
    playerStats [evPass, evShot, evGoal] =
      [("A", { name := "A", team := some "X", minutes_played := 0,
               goals := 1, assists := 0, shots := 1, shots_on_target := 1,
               passes_completed := 1, passes_attempted := 1, tackles := 0,
               interceptions := 0, duels_won := 0, duels_lost := 0,
               yellow_cards := 0, red_cards := 0, xg := 0.73, xa := 0 })] ∧
    teamStats [evPass, evShot, evGoal] =
      [("X", { team := "X", goals := 1, shots := 1, shots_on_target := 1,
               passes_completed := 1, passes_attempted := 1, tackles := 0,
               interceptions := 0, duels_won := 0, duels_lost := 0,
               corners := 0, fouls := 0, yellow_cards := 0, red_cards := 0,
               xg := 0.73 })] := by
  have h1 : playerStep [] evPass =
      [("A", { name := "A", team := some "X", minutes_played := 0,
               goals := 0, assists := 0, shots := 0, shots_on_target := 0,
               passes_completed := 1, passes_attempted := 1, tackles := 0,
               interceptions := 0, duels_won := 0, duels_lost := 0,
               yellow_cards := 0, red_cards := 0, xg := 0, xa := 0 })] := by
    simp [playerStep, keyOf, alookup, initPlayer, applyPlayer,
      passOutcomeName, passGoalAssist, passXg, outcomeName, PassObj.empty,
      Outcome.empty, evPass, nullEvent]
  have h2 : playerStep
      [("A", { name := "A", team := some "X", minutes_played := 0,
               goals := 0, assists := 0, shots := 0, shots_on_target := 0,
               passes_completed := 1, passes_attempted := 1, tackles := 0,
               interceptions := 0, duels_won := 0, duels_lost := 0,
               yellow_cards := 0, red_cards := 0, xg := 0, xa := 0 })]
      evShot =
      [("A", { name := "A", team := some "X", minutes_played := 0,
               goals := 0, assists := 0, shots := 1, shots_on_target := 1,
               passes_completed := 1, passes_attempted := 1, tackles := 0,
               interceptions := 0, duels_won := 0, duels_lost := 0,
               yellow_cards := 0, red_cards := 0, xg := 0.73, xa := 0 })] := by
    simp [playerStep, keyOf, alookup, applyPlayer, shotOnTarget, shotXg,
      outcomeName, ShotObj.empty, Outcome.empty, evShot, nullEvent]
  have h3 : playerStep
      [("A", { name := "A", team := some "X", minutes_played := 0,
               goals := 0, assists := 0, shots := 1, shots_on_target := 1,
               passes_completed := 1, passes_attempted := 1, tackles := 0,
               interceptions := 0, duels_won := 0, duels_lost := 0,
               yellow_cards := 0, red_cards := 0, xg := 0.73, xa := 0 })]
      evGoal =
      [("A", { name := "A", team := some "X", minutes_played := 0,
               goals := 1, assists := 0, shots := 1, shots_on_target := 1,
               passes_completed := 1, passes_attempted := 1, tackles := 0,
               interceptions := 0, duels_won := 0, duels_lost := 0,
               yellow_cards := 0, red_cards := 0, xg := 0.73, xa := 0 })] := by
    simp [playerStep, keyOf, alookup, applyPlayer, evGoal, nullEvent]
  have g1 : teamStep [] evPass =
      [("X", { team := "X", goals := 0, shots := 0, shots_on_target := 0,
               passes_completed := 1, passes_attempted := 1, tackles := 0,
               interceptions := 0, duels_won := 0, duels_lost := 0,
               corners := 0, fouls := 0, yellow_cards := 0, red_cards := 0,
               xg := 0 })] := by
    simp [teamStep, keyOf, alookup, initTeam, applyTeam, passOutcomeName,
      outcomeName, PassObj.empty, Outcome.empty, evPass, nullEvent]
  have g2 : teamStep
      [("X", { team := "X", goals := 0, shots := 0, shots_on_target := 0,
               passes_completed := 1, passes_attempted := 1, tackles := 0,
               interceptions := 0, duels_won := 0, duels_lost := 0,
               corners := 0, fouls := 0, yellow_cards := 0, red_cards := 0,
               xg := 0 })] evShot =
      [("X", { team := "X", goals := 0, shots := 1, shots_on_target := 1,
               passes_completed := 1, passes_attempted := 1, tackles := 0,
               interceptions := 0, duels_won := 0, duels_lost := 0,
               corners := 0, fouls := 0, yellow_cards := 0, red_cards := 0,
               xg := 0.73 })] := by
    simp [teamStep, keyOf, alookup, applyTeam, shotOnTarget, shotXg,
      outcomeName, ShotObj.empty, Outcome.empty, evShot, nullEvent]
  have g3 : teamStep
      [("X", { team := "X", goals := 0, shots := 1, shots_on_target := 1,
               passes_completed := 1, passes_attempted := 1, tackles := 0,
               interceptions := 0, duels_won := 0, duels_lost := 0,
               corners := 0, fouls := 0, yellow_cards := 0, red_cards := 0,
               xg := 0.73 })] evGoal =
      [("X", { team := "X", goals := 1, shots := 1, shots_on_target := 1,
               passes_completed := 1, passes_attempted := 1, tackles := 0,
               interceptions := 0, duels_won := 0, duels_lost := 0,
               corners := 0, fouls := 0, yellow_cards := 0, red_cards := 0,
               xg := 0.73 })] := by
    simp [teamStep, keyOf, alookup, applyTeam, evGoal, nullEvent]
  constructor
  · show playerStep (playerStep (playerStep [] evPass) evShot) evGoal = _
    rw [h1, h2, h3]
  · show teamStep (teamStep (teamStep [] evPass) evShot) evGoal = _
    rw [g1, g2, g3]

/-- `{type: Duel, player: "A", team: "X"}` with no `duel` sub-object. -/
def evDuel : Event :=
  { nullEvent with
    type := some "Duel", player := some "A", team := some "X" }

/-- C2: a Pass event with resolvable actor updates that actor's entry by
`applyPlayer`/`applyTeam`; the update increments `passes_attempted`
unconditionally, increments `passes_completed` iff `pass.outcome.name` is
not "Incomplete" (absence yields `none ≠ some "Incomplete"`, hence counts
as completed), and — player instantiation only — when `pass.goal_assist`
is exactly `true` increments `assists` and adds `pass.statsbomb_xg`
(0 when absent) to `xa`.  The team instantiation has no assist rule. -/
theorem claim2_pass_rule :
    (∀ (e : Event) (st : List (String × PlayerStats)) (k : String),
        e.type = some "Pass" → keyOf e.player = some k →
        alookup k (playerStep st e) =
          some (applyPlayer e ((alookup k st).getD (initPlayer k e.team)))) ∧
    (∀ (e : Event) (s : PlayerStats), e.type = some "Pass" →
        (applyPlayer e s).passes_attempted = s.passes_attempted + 1 ∧
        (applyPlayer e s).passes_completed =
          (if passOutcomeName e ≠ some "Incomplete"
           then s.passes_completed + 1 else s.passes_completed) ∧
        (applyPlayer e s).assists =
          (if passGoalAssist e = some true then s.assists + 1
           else s.assists) ∧
        (applyPlayer e s).xa =
          (if passGoalAssist e = some true then s.xa + (passXg e).getD 0
           else s.xa)) ∧
    (∀ (e : Event) (st : List (String × TeamStats)) (k : String),
        e.type = some "Pass" → keyOf e.team = some k →
        alookup k (teamStep st e) =
          some (applyTeam e ((alookup k st).getD (initTeam k)))) ∧
    (∀ (e : Event) (s : TeamStats), e.type = some "Pass" →
        (applyTeam e s).passes_attempted = s.passes_attempted + 1 ∧
        (applyTeam e s).passes_completed =
          (if passOutcomeName e ≠ some "Incomplete"
           then s.passes_completed + 1 else s.passes_completed)) := by
  refine ⟨fun e st k _ hk => alookup_playerStep_self e st k hk,
          fun e s h => ?_,
          fun e st k _ hk => alookup_teamStep_self e st k hk,
          fun e s h => ?_⟩
  · rw [applyPlayer_addD]
    by_cases ho : passOutcomeName e = some "Incomplete" <;>
      by_cases hg : passGoalAssist e = some true <;>
      simp [PlayerStats.addD, playerDelta, h, ho, hg, PDelta.zero]
  · rw [applyTeam_addD]
    by_cases ho : passOutcomeName e = some "Incomplete" <;>
      simp [TeamStats.addD, teamDelta, h, ho, TDelta.zero]

theorem claim2_pass_rule_witness :
    (applyPlayer evPass (initPlayer "A" (some "X"))).passes_attempted =
      (initPlayer "A" (some "X")).passes_attempted + 1 ∧
    alookup "A" (playerStep [] evPass) =
      some (applyPlayer evPass
        ((alookup "A" ([] : List (String × PlayerStats))).getD
          (initPlayer "A" evPass.team))) :=
  ⟨(claim2_pass_rule.2.1 evPass (initPlayer "A" (some "X")) rfl).1,
   claim2_pass_rule.1 evPass [] "A" rfl (by decide)⟩

/-- C3: a Duel event with resolvable actor updates that actor's entry;
`duels_won` is incremented iff `duel.outcome.name = "Won"`, otherwise
`duels_lost` is incremented; in particular with the `duel` sub-object
entirely absent the lookups default and `duels_lost` is incremented
(the update is a total function — nothing is raised). -/
theorem claim3_duel_rule :
    (∀ (e : Event) (st : List (String × PlayerStats)) (k : String),
        e.type = some "Duel" → keyOf e.player = some k →
        alookup k (playerStep st e) =
          some (applyPlayer e ((alookup k st).getD (initPlayer k e.team)))) ∧
    (∀ (e : Event) (s : PlayerStats), e.type = some "Duel" →
        (applyPlayer e s).duels_won =
          (if duelOutcomeName e = some "Won" then s.duels_won + 1
           else s.duels_won) ∧
        (applyPlayer e s).duels_lost =
          (if duelOutcomeName e = some "Won" then s.duels_lost
           else s.duels_lost + 1) ∧
        (e.duel = none →
          (applyPlayer e s).duels_lost = s.duels_lost + 1 ∧
          (applyPlayer e s).duels_won = s.duels_won)) ∧
    (∀ (e : Event) (st : List (String × TeamStats)) (k : String),
        e.type = some "Duel" → keyOf e.team = some k →
        alookup k (teamStep st e) =
          some (applyTeam e ((alookup k st).getD (initTeam k)))) ∧
    (∀ (e : Event) (s : TeamStats), e.type = some "Duel" →
        (applyTeam e s).duels_won =
          (if duelOutcomeName e = some "Won" then s.duels_won + 1
           else s.duels_won) ∧
        (applyTeam e s).duels_lost =
          (if duelOutcomeName e = some "Won" then s.duels_lost
           else s.duels_lost + 1) ∧
        (e.duel = none →
          (applyTeam e s).duels_lost = s.duels_lost + 1 ∧
          (applyTeam e s).duels_won = s.duels_won)) := by
  refine ⟨fun e st k _ hk => alookup_playerStep_self e st k hk,
          fun e s h => ?_,
          fun e st k _ hk => alookup_teamStep_self e st k hk,
          fun e s h => ?_⟩
  · rw [applyPlayer_addD]
    by_cases hd : duelOutcomeName e = some "Won" <;>
      simp [PlayerStats.addD, playerDelta, h, hd, PDelta.zero] <;>
      intro hnone <;>
      simp [duelOutcomeName, hnone, DuelObj.empty, outcomeName,
        Outcome.empty] at hd
  · rw [applyTeam_addD]
    by_cases hd : duelOutcomeName e = some "Won" <;>
      simp [TeamStats.addD, teamDelta, h, hd, TDelta.zero] <;>
      intro hnone <;>
      simp [duelOutcomeName, hnone, DuelObj.empty, outcomeName,
        Outcome.empty] at hd

theorem claim3_duel_rule_witness :
    (applyPlayer evDuel (initPlayer "A" (some "X"))).duels_lost =
      (initPlayer "A" (some "X")).duels_lost + 1 ∧
    (applyPlayer evDuel (initPlayer "A" (some "X"))).duels_won =
      (initPlayer "A" (some "X")).duels_won ∧
    alookup "A" (playerStep [] evDuel) =
      some (applyPlayer evDuel
        ((alookup "A" ([] : List (String × PlayerStats))).getD
          (initPlayer "A" evDuel.team))) :=
  ⟨((claim3_duel_rule.2.1 evDuel (initPlayer "A" (some "X")) rfl).2.2 rfl).1,
   ((claim3_duel_rule.2.1 evDuel (initPlayer "A" (some "X")) rfl).2.2 rfl).2,
   claim3_duel_rule.1 evDuel [] "A" rfl (by decide)⟩

/-- C4: in every aggregate of the output of either view,
`passes_completed ≤ passes_attempted`. -/
theorem claim4_completed_le_attempted (l : List Event) :
    (∀ s ∈ playerStatsList l, s.passes_completed ≤ s.passes_attempted) ∧
    (∀ s ∈ teamStatsList l, s.passes_completed ≤ s.passes_attempted) := by
  constructor
  · intro s hs
    obtain ⟨p, hp, rfl⟩ := List.mem_map.1 hs
    refine foldl_playerStep_inv
      (P := fun s => s.passes_completed ≤ s.passes_attempted)
      (Q := fun _ => True)
      (fun k t => by simp [initPlayer])
      (fun e s _ hle => ?_) l [] (fun _ _ => trivial) (by simp) p hp
    rw [applyPlayer_addD]
    simp only [PlayerStats.addD]
    exact Nat.add_le_add hle (playerDelta_pc_le_pa e)
  · intro s hs
    obtain ⟨p, hp, rfl⟩ := List.mem_map.1 hs
    refine foldl_teamStep_inv
      (P := fun s => s.passes_completed ≤ s.passes_attempted)
      (Q := fun _ => True)
      (fun k => by simp [initTeam])
      (fun e s _ hle => ?_) l [] (fun _ _ => trivial) (by simp) p hp
    rw [applyTeam_addD]
    simp only [TeamStats.addD]
    exact Nat.add_le_add hle (teamDelta_pc_le_pa e)

/-- The player aggregate produced by the single event `evPass`. -/
def psPass : PlayerStats :=
  { name := "A", team := some "X", minutes_played := 0, goals := 0,
    assists := 0, shots := 0, shots_on_target := 0, passes_completed := 1,
    passes_attempted := 1, tackles := 0, interceptions := 0, duels_won := 0,
    duels_lost := 0, yellow_cards := 0, red_cards := 0, xg := 0, xa := 0 }

theorem claim4_completed_le_attempted_witness :
    psPass.passes_completed ≤ psPass.passes_attempted :=
  (claim4_completed_le_attempted [evPass]).1 psPass (by decide)

/-- A Shot event carrying a (malformed) negative `statsbomb_xg`. -/
def evShotNeg : Event :=
  { nullEvent with
    type := some "Shot", player := some "A", team := some "X",
    shot := some ⟨none, some (-1 : ℚ)⟩ }

/-- C5 counterexample: the claim asserts every accumulator (including
`xg`) is ≥ 0 for **every** event sequence, but a Shot event whose
`statsbomb_xg` is negative is added as-is, driving the aggregate's `xg`
below zero after one event. -/
theorem claim5_counterexample :
    ∃ s : PlayerStats,
      alookup "A" (playerStats [evShotNeg]) = some s ∧ s.xg < 0 := by
  refine ⟨{ name := "A", team := some "X", minutes_played := 0, goals := 0,
            assists := 0, shots := 1, shots_on_target := 0,
            passes_completed := 0, passes_attempted := 0, tackles := 0,
            interceptions := 0, duels_won := 0, duels_lost := 0,
            yellow_cards := 0, red_cards := 0, xg := -1, xa := 0 },
    ?_, by norm_num⟩
  show alookup "A" (playerStep [] evShotNeg) = _
  simp [playerStep, keyOf, alookup, initPlayer, applyPlayer, shotOnTarget,
    shotXg, outcomeName, ShotObj.empty, Outcome.empty, evShotNeg, nullEvent]

/-- C5 amended: every integer counter is non-negative by its `ℕ` type
and — unconditionally, for every event sequence — non-decreasing along
any prefix extension (`leC`); the continuous accumulators `xg`/`xa` are
non-negative and non-decreasing (full `le`, counters included)
**provided** every `statsbomb_xg` occurring in the events is ≥ 0
(`xgOk`) — the unrestricted claim for `xg`/`xa` fails
(`claim5_counterexample`). -/
theorem claim5_amended (l1 l2 : List Event) :
    (∀ (k : String) (s : PlayerStats),
        alookup k (playerStats l1) = some s →
        ∃ t, alookup k (playerStats (l1 ++ l2)) = some t ∧ s.leC t) ∧
    (∀ (k : String) (s : TeamStats),
        alookup k (teamStats l1) = some s →
        ∃ t, alookup k (teamStats (l1 ++ l2)) = some t ∧ s.leC t) ∧
    ((∀ e ∈ l1 ++ l2, xgOk e) →
      (∀ p ∈ playerStats l1, 0 ≤ p.2.xg ∧ 0 ≤ p.2.xa) ∧
      (∀ p ∈ teamStats l1, 0 ≤ p.2.xg) ∧
      (∀ (k : String) (s : PlayerStats),
          alookup k (playerStats l1) = some s →
          ∃ t, alookup k (playerStats (l1 ++ l2)) = some t ∧ s.le t) ∧
      (∀ (k : String) (s : TeamStats),
          alookup k (teamStats l1) = some s →
          ∃ t, alookup k (teamStats (l1 ++ l2)) = some t ∧ s.le t)) := by
  refine ⟨fun k s hs => ⟨_, alookup_playerStats_append l1 l2 k s hs,
      PlayerStats.pleC_addD _ _⟩,
    fun k s hs => ⟨_, alookup_teamStats_append l1 l2 k s hs,
      TeamStats.tleC_addD _ _⟩,
    fun h => ?_⟩
  have hq1 : ∀ e ∈ l1, xgOk e := fun e he => h e (List.mem_append_left _ he)
  have hq2 : ∀ e ∈ l2, xgOk e := fun e he => h e (List.mem_append_right _ he)
  refine ⟨?_, ?_, ?_, ?_⟩
  · intro p hp
    refine foldl_playerStep_inv (P := fun s => 0 ≤ s.xg ∧ 0 ≤ s.xa)
      (Q := xgOk) (fun k t => by simp [initPlayer])
      (fun e s hq hs => ?_) l1 [] hq1 (by simp) p hp
    rw [applyPlayer_addD]
    have hd := playerDelta_xg_nonneg e hq
    exact ⟨add_nonneg hs.1 hd.1, add_nonneg hs.2 hd.2⟩
  · intro p hp
    refine foldl_teamStep_inv (P := fun s => 0 ≤ s.xg)
      (Q := xgOk) (fun k => by simp [initTeam])
      (fun e s hq hs => ?_) l1 [] hq1 (by simp) p hp
    rw [applyTeam_addD]
    exact add_nonneg hs (teamDelta_xg_nonneg e hq)
  · intro k s hs
    have hx := sumPDelta_xg_nonneg (pEvents k l2)
      (fun e he => hq2 e (List.mem_of_mem_filter he))
    exact ⟨_, alookup_playerStats_append l1 l2 k s hs,
      PlayerStats.ple_addD _ _ hx.1 hx.2⟩
  · intro k s hs
    exact ⟨_, alookup_teamStats_append l1 l2 k s hs,
      TeamStats.tle_addD _ _ (sumTDelta_xg_nonneg _
        (fun e he => hq2 e (List.mem_of_mem_filter he)))⟩

/-- The player aggregate produced by the single event `evGoal`. -/
def psGoal : PlayerStats :=
  { name := "A", team := some "X", minutes_played := 0, goals := 1,
    assists := 0, shots := 0, shots_on_target := 0, passes_completed := 0,
    passes_attempted := 0, tackles := 0, interceptions := 0, duels_won := 0,
    duels_lost := 0, yellow_cards := 0, red_cards := 0, xg := 0, xa := 0 }

theorem claim5_amended_witness :
    (∃ t, alookup "A" (playerStats ([evGoal] ++ [evShotNeg])) = some t ∧
      psGoal.leC t) ∧
    (∃ t, alookup "A" (playerStats ([evGoal] ++ [evGoal])) = some t ∧
      psGoal.le t) :=
  ⟨(claim5_amended [evGoal] [evShotNeg]).1 "A" psGoal (by decide),
   ((claim5_amended [evGoal] [evGoal]).2.2 (by decide)).2.2.1 "A" psGoal
     (by decide)⟩

/-- `{type: Goal, player: "A", team: "Y"}` — same player, other team. -/
def evGoalY : Event :=
  { nullEvent with
    type := some "Goal", player := some "A", team := some "Y" }

/-- C6 counterexample: aggregation is *not* permutation-invariant in every
observable field.  The player aggregate's `team` is copied from the first
event naming that player, so two Goal events for player "A" with teams
"X" and "Y" give different aggregates for "A" under the two orders. -/
theorem claim6_counterexample :
    [evGoal, evGoalY].Perm [evGoalY, evGoal] ∧
    alookup "A" (playerStats [evGoal, evGoalY]) ≠
      alookup "A" (playerStats [evGoalY, evGoal]) :=
  ⟨List.Perm.swap evGoalY evGoal [], by decide⟩

/-- Forget the order-dependent identity field of a player aggregate. -/
def eraseTeam (s : PlayerStats) : PlayerStats := { s with team := none }

theorem eraseTeam_init_addD (k : String) (t : Option String) (d : PDelta) :
    eraseTeam ((initPlayer k t).addD d) = (initPlayer k none).addD d := by
  simp [eraseTeam, initPlayer, PlayerStats.addD]

/-- C6 amended: under any permutation of the event sequence, the team
aggregation gives the same key-to-aggregate map, and the player
aggregation gives the same map up to the `team` identity field (which is
taken from the first event for that player in processing order —
`claim6_counterexample`); every counter and accumulator, and the key set,
are order-independent. -/
theorem claim6_amended (l l' : List Event) (h : l.Perm l') :
    (∀ k, alookup k (teamStats l) = alookup k (teamStats l')) ∧
    (∀ k, (alookup k (playerStats l)).map eraseTeam =
          (alookup k (playerStats l')).map eraseTeam) := by
  constructor
  · intro k
    rw [teamStats_char, teamStats_char]
    have hperm : (tEvents k l).Perm (tEvents k l') := h.filter _
    have hsum := sumTDelta_perm hperm
    cases hl : tEvents k l with
    | nil =>
      rw [hl] at hperm
      rw [hperm.symm.eq_nil]
    | cons e0 es =>
      rw [hl] at hperm hsum
      have hne : tEvents k l' ≠ [] := by
        intro hnil
        rw [hnil] at hperm
        exact List.cons_ne_nil e0 es hperm.eq_nil
      obtain ⟨e1, es1, hl'⟩ := List.exists_cons_of_ne_nil hne
      rw [hl'] at hsum ⊢
      simp only [List.head?, Option.map_some']
      rw [hsum]
  · intro k
    rw [playerStats_char, playerStats_char]
    have hcomp : ∀ (m : List Event),
        ((m.head?.map
          (fun e0 => (initPlayer k e0.team).addD (sumPDelta m))).map
            eraseTeam) =
          m.head?.map (fun _ => (initPlayer k none).addD (sumPDelta m)) := by
      intro m
      cases m with
      | nil => rfl
      | cons a t => simp [List.head?, eraseTeam_init_addD]
    rw [hcomp, hcomp]
    have hperm : (pEvents k l).Perm (pEvents k l') := h.filter _
    have hsum := sumPDelta_perm hperm
    cases hl : pEvents k l with
    | nil =>
      rw [hl] at hperm
      rw [hperm.symm.eq_nil]
    | cons e0 es =>
      rw [hl] at hperm hsum
      have hne : pEvents k l' ≠ [] := by
        intro hnil
        rw [hnil] at hperm
        exact List.cons_ne_nil e0 es hperm.eq_nil
      obtain ⟨e1, es1, hl'⟩ := List.exists_cons_of_ne_nil hne
      rw [hl'] at hsum ⊢
      simp only [List.head?, Option.map_some']
      rw [hsum]

theorem claim6_amended_witness :
    alookup "X" (teamStats [evGoal, evGoalY]) =
      alookup "X" (teamStats [evGoalY, evGoal]) :=
  (claim6_amended [evGoal, evGoalY] [evGoalY, evGoal]
    (List.Perm.swap evGoalY evGoal [])).1 "X"

/-- Event types carrying a player-side metric rule. -/
def playerRuleTypes : List (Option String) :=
  [some "Shot", some "Pass", some "Goal", some "Tackle",
   some "Interception", some "Duel", some "Foul Committed"]

/-- Event types carrying a team-side metric rule. -/
def teamRuleTypes : List (Option String) :=
  [some "Shot", some "Pass", some "Goal", some "Tackle",
   some "Interception", some "Duel", some "Corner", some "Foul Committed"]

theorem applyPlayer_no_rule (e : Event) (s : PlayerStats)
    (h : e.type ∉ playerRuleTypes) : applyPlayer e s = s := by
  simp only [playerRuleTypes, List.mem_cons, not_or, List.not_mem_nil,
    not_false_iff, and_true] at h
  obtain ⟨h1, h2, h3, h4, h5, h6, h7⟩ := h
  simp [applyPlayer, h1, h2, h3, h4, h5, h6, h7]

theorem applyTeam_no_rule (e : Event) (s : TeamStats)
    (h : e.type ∉ teamRuleTypes) : applyTeam e s = s := by
  simp only [teamRuleTypes, List.mem_cons, not_or, List.not_mem_nil,
    not_false_iff, and_true] at h
  obtain ⟨h1, h2, h3, h4, h5, h6, h7, h8⟩ := h
  simp [applyTeam, h1, h2, h3, h4, h5, h6, h7, h8]

/-- C7: a first event with resolvable key creates the entry from
`initPlayer`/`initTeam` — all counters (and `xg`/`xa`) literally zero,
identity fields copied from that event — and then applies the type's
rules to it; if the type matches no rule, the entry after the event is
exactly the all-zero fresh entry: the key is registered, nothing else. -/
theorem claim7_lazy_creation :
    (∀ (k : String) (t : Option String),
        initPlayer k t = ⟨k, t, 0, 0, 0, 0, 0, 0, 0, 0, 0, 0, 0, 0, 0, 0, 0⟩) ∧
    (∀ k : String,
        initTeam k = ⟨k, 0, 0, 0, 0, 0, 0, 0, 0, 0, 0, 0, 0, 0, 0⟩) ∧
    (∀ (e : Event) (st : List (String × PlayerStats)) (k : String),
        keyOf e.player = some k → alookup k st = none →
        alookup k (playerStep st e) =
          some (applyPlayer e (initPlayer k e.team)) ∧
        (e.type ∉ playerRuleTypes →
          alookup k (playerStep st e) = some (initPlayer k e.team))) ∧
    (∀ (e : Event) (st : List (String × TeamStats)) (k : String),
        keyOf e.team = some k → alookup k st = none →
        alookup k (teamStep st e) =
          some (applyTeam e (initTeam k)) ∧
        (e.type ∉ teamRuleTypes →
          alookup k (teamStep st e) = some (initTeam k))) := by
  refine ⟨fun k t => rfl, fun k => rfl,
          fun e st k hk hnone => ?_, fun e st k hk hnone => ?_⟩
  · have h := alookup_playerStep_self e st k hk
    rw [hnone, Option.getD_none] at h
    exact ⟨h, fun hnr => by rw [h, applyPlayer_no_rule e _ hnr]⟩
  · have h := alookup_teamStep_self e st k hk
    rw [hnone, Option.getD_none] at h
    exact ⟨h, fun hnr => by rw [h, applyTeam_no_rule e _ hnr]⟩

/-- An event with a type matching no metric-update rule. -/
def evUnknown : Event :=
  { nullEvent with
    type := some "Ball Receipt", player := some "A", team := some "X" }

theorem claim7_lazy_creation_witness :
    alookup "A" (playerStep [] evUnknown) =
      some (initPlayer "A" evUnknown.team) ∧
    alookup "X" (teamStep [] evUnknown) = some (initTeam "X") :=
  ⟨(claim7_lazy_creation.2.2.1 evUnknown [] "A" (by decide) rfl).2 (by decide),
   (claim7_lazy_creation.2.2.2 evUnknown [] "X" (by decide) rfl).2 (by decide)⟩

/-- C8: every key of the output corresponds to at least one event whose
`player` (resp. `team`) field literally equals it; events with no
resolvable actor leave the state untouched; the empty sequence yields
empty collections for both views. -/
theorem claim8_key_soundness :
    (∀ (l : List Event) (k : String),
        (alookup k (playerStats l)).isSome → ∃ e ∈ l, e.player = some k) ∧
    (∀ (l : List Event) (k : String),
        (alookup k (teamStats l)).isSome → ∃ e ∈ l, e.team = some k) ∧
    (∀ (e : Event) (st : List (String × PlayerStats)),
        keyOf e.player = none → playerStep st e = st) ∧
    (∀ (e : Event) (st : List (String × TeamStats)),
        keyOf e.team = none → teamStep st e = st) ∧
    playerStats ([] : List Event) = [] ∧
    teamStats ([] : List Event) = [] := by
  refine ⟨?_, ?_, fun e st h => playerStep_skipped e st h,
          fun e st h => teamStep_skipped e st h, rfl, rfl⟩
  · intro l k hsome
    rw [playerStats_char] at hsome
    cases hp : pEvents k l with
    | nil => rw [hp] at hsome; simp at hsome
    | cons e0 es =>
      have he0 : e0 ∈ pEvents k l := by
        rw [hp]; exact List.mem_cons_self _ _
      have hf := List.mem_filter.1
        (show e0 ∈ l.filter (fun e => keyOf e.player == some k) from he0)
      exact ⟨e0, hf.1, (keyOf_eq_some (beq_iff_eq.1 hf.2)).1⟩
  · intro l k hsome
    rw [teamStats_char] at hsome
    cases hp : tEvents k l with
    | nil => rw [hp] at hsome; simp at hsome
    | cons e0 es =>
      have he0 : e0 ∈ tEvents k l := by
        rw [hp]; exact List.mem_cons_self _ _
      have hf := List.mem_filter.1
        (show e0 ∈ l.filter (fun e => keyOf e.team == some k) from he0)
      exact ⟨e0, hf.1, (keyOf_eq_some (beq_iff_eq.1 hf.2)).1⟩

theorem claim8_key_soundness_witness :
    ∃ e ∈ [evGoal], e.player = some "A" :=
  claim8_key_soundness.1 [evGoal] "A" (by decide)

/-- C9: for **every** finite event sequence — including events with
missing sub-objects, missing nested keys and unknown type tags — both
scans, with their potentially-raising dict subscripts made explicit in
`Except`, return `ok` of the pure result: no exception escapes the loop
body, the guarded subscripts never fire a `KeyError`, and all other
nested lookups default instead of raising. -/
theorem claim9_never_raises (l : List Event) :
    playerStatsE l = Except.ok (playerStats l) ∧
    teamStatsE l = Except.ok (teamStats l) :=
  ⟨foldE_playerStepE_ok l [], foldE_teamStepE_ok l []⟩

/-- C10: an event whose `player` (resp. `team`) is the empty string is
skipped exactly like one with the field absent — the skip tests Python
falsiness, not mere absence — and consequently `""` is never a key of
either output map. -/
theorem claim10_empty_string_skipped :
    (∀ (e : Event) (st : List (String × PlayerStats)),
        e.player = some "" → playerStep st e = st) ∧
    (∀ (e : Event) (st : List (String × PlayerStats)),
        e.player = none → playerStep st e = st) ∧
    (∀ l : List Event, alookup "" (playerStats l) = none) ∧
    (∀ (e : Event) (st : List (String × TeamStats)),
        e.team = some "" → teamStep st e = st) ∧
    (∀ (e : Event) (st : List (String × TeamStats)),
        e.team = none → teamStep st e = st) ∧
    (∀ l : List Event, alookup "" (teamStats l) = none) := by
  refine ⟨fun e st h => playerStep_skipped e st (by simp [keyOf, h]),
          fun e st h => playerStep_skipped e st (by simp [keyOf, h]),
          ?_,
          fun e st h => teamStep_skipped e st (by simp [keyOf, h]),
          fun e st h => teamStep_skipped e st (by simp [keyOf, h]),
          ?_⟩
  · intro l
    rw [playerStats_char]
    have hnil : pEvents "" l = [] :=
      List.filter_eq_nil.2
        (fun e _ => by simpa using keyOf_ne_empty e.player)
    rw [hnil]
    rfl
  · intro l
    rw [teamStats_char]
    have hnil : tEvents "" l = [] :=
      List.filter_eq_nil.2
        (fun e _ => by simpa using keyOf_ne_empty e.team)
    rw [hnil]
    rfl

/-- An event whose actor fields are present but empty strings. -/
def evEmptyActor : Event :=
  { nullEvent with
    type := some "Goal", player := some "", team := some "" }

theorem claim10_empty_string_skipped_witness :
    playerStep [] evEmptyActor = [] ∧
    teamStep [] evEmptyActor = ([] : List (String × TeamStats)) ∧
    alookup "" (playerStats [evEmptyActor]) = none :=
  ⟨claim10_empty_string_skipped.1 evEmptyActor [] rfl,
   claim10_empty_string_skipped.2.2.2.1 evEmptyActor [] rfl,
   claim10_empty_string_skipped.2.2.1 [evEmptyActor]⟩

end BackSB
